import Mathlib

/-!
A shallow embedding of the potion-shop backend (`src/api/carts.py`,
`src/api/catalog.py`).  The SQL tables become lists of rows, the endpoint
bodies become pure functions over a `DB` state, and Python exceptions
(`NoneType` attribute access after an empty `.first()`) become an explicit
error value.  Calls to `get_cart` made from inside `checkout` open a fresh
database connection in the source, so they observe the last committed state,
i.e. the `DB` value `checkout` was entered with.
-/

namespace PhunPotions

/-- Day of week; `convert_days = ["mon","tue","wed","thu","fri","sat","sun"]`
in the source, indexed by `datetime.utcnow().weekday()`. -/
inductive Day where
  | mon | tue | wed | thu | fri | sat | sun
deriving DecidableEq

/-- A row of the `carts` table. -/
structure CartRow where
  cart_id : Nat
  customer : String
  payment : Option String
  global_inventory_transaction_id : Option Nat
deriving DecidableEq

/-- A row of the `cart_items` table. -/
structure CartItemRow where
  items_id : Nat
  cart_id : Nat
  sku : String
  quantity : Int
deriving DecidableEq

/-- A row of the `potions` table: per-day price and sold columns
(`mon_price` … `sun_price`, `mon_sold` … `sun_sold`). -/
structure PotionRow where
  sku : String
  potion_type : List Int
  mon_price : Int
  tue_price : Int
  wed_price : Int
  thu_price : Int
  fri_price : Int
  sat_price : Int
  sun_price : Int
  mon_sold : Int
  tue_sold : Int
  wed_sold : Int
  thu_sold : Int
  fri_sold : Int
  sat_sold : Int
  sun_sold : Int
deriving DecidableEq

/-- A row of the `potion_transactions` table. -/
structure PotionTransaction where
  id : Nat
  description : Option String
deriving DecidableEq

/-- A row of the `potion_entries` table. -/
structure PotionEntry where
  potion_sku : String
  change : Int
  potion_transaction_id : Nat
deriving DecidableEq

/-- A row of the `global_inventory_transactions` table. -/
structure GlobalTransaction where
  id : Nat
  description : Option String
  created_at : Nat
deriving DecidableEq

/-- A row of the `global_inventory_entries` table. -/
structure GlobalEntry where
  change_gold : Int
  global_inventory_transaction_id : Nat
deriving DecidableEq

/-- The database state.  The `next_*` fields model the generated-identity
counters; `now` models the clock used for `created_at` defaults. -/
structure DB where
  carts : List CartRow
  cart_items : List CartItemRow
  potions : List PotionRow
  potion_transactions : List PotionTransaction
  potion_entries : List PotionEntry
  global_transactions : List GlobalTransaction
  global_entries : List GlobalEntry
  next_cart_id : Nat
  next_item_id : Nat
  next_ptx_id : Nat
  next_gtx_id : Nat
  now : Nat
deriving DecidableEq

/-- A Python run-time failure: attribute access on the `None` returned by an
empty `.first()` result. -/
inductive PyError where
  | attributeErrorNone
  | cartNotFound
deriving DecidableEq

/-- The lookup `getattr(potion, day + "_price")`. -/
def price_of (p : PotionRow) : Day → Int
  | .mon => p.mon_price
  | .tue => p.tue_price
  | .wed => p.wed_price
  | .thu => p.thu_price
  | .fri => p.fri_price
  | .sat => p.sat_price
  | .sun => p.sun_price

/-- The `{day}_sold` column of a potion row. -/
def sold_of (p : PotionRow) : Day → Int
  | .mon => p.mon_sold
  | .tue => p.tue_sold
  | .wed => p.wed_sold
  | .thu => p.thu_sold
  | .fri => p.fri_sold
  | .sat => p.sat_sold
  | .sun => p.sun_sold

/-- One row under `UPDATE potions SET {day}_sold = {day}_sold + :num_sold`. -/
def add_sold (p : PotionRow) (day : Day) (q : Int) : PotionRow :=
  match day with
  | .mon => { p with mon_sold := p.mon_sold + q }
  | .tue => { p with tue_sold := p.tue_sold + q }
  | .wed => { p with wed_sold := p.wed_sold + q }
  | .thu => { p with thu_sold := p.thu_sold + q }
  | .fri => { p with fri_sold := p.fri_sold + q }
  | .sat => { p with sat_sold := p.sat_sold + q }
  | .sun => { p with sun_sold := p.sun_sold + q }

/-- Sum of the `change` column over a list of potion entries. -/
def entry_sum : List PotionEntry → Int
  | [] => 0
  | e :: rest => e.change + entry_sum rest

/-- The sum `COALESCE(SUM(change), 0)` over the potion entries of one sku: the derived
current stock of that sku. -/
def num_potion_of (db : DB) (sku : String) : Int :=
  entry_sum (db.potion_entries.filter (fun e => e.potion_sku == sku))

/-- Python `repr` of a list of ints, as an f-string renders `potion_type`. -/
def pyListRepr (l : List Int) : String :=
  "[" ++ String.intercalate ", " (l.map toString) ++ "]"

/-- The settled-cart heading of `get_cart`. -/
def settled_header (cart_id : Nat) (customer payment : String) : String :=
  s!"Cart #{cart_id}: {customer} used {payment} to buy:"

/-- The staged-cart heading of `get_cart`. -/
def staged_header (cart_id : Nat) (customer : String) : String :=
  s!"Cart #{cart_id}: {customer} is seeking to buy:"

/-- The message `get_cart` returns for an unknown cart id. -/
def not_created_msg (cart_id : Nat) : String :=
  s!"Cart #{cart_id} has not yet been created."

/-- One loop iteration of `get_cart`: render one cart line item.  Fails like
the source (`.first()` is `None`) when the sku has no potion row. -/
def render_item (db : DB) (day : Day) (ci : CartItemRow) : Except PyError String :=
  match db.potions.find? (fun p => p.sku == ci.sku) with
  | none => .error .attributeErrorNone
  | some potion =>
    let q := ci.quantity
    let sku := ci.sku
    let pt := pyListRepr potion.potion_type
    let cost := ci.quantity * price_of potion day
    let remaining := num_potion_of db ci.sku
    .ok s!" {q} {sku} ({pt}) for {cost} gold ({remaining} remaining),"

/-- The `for cart_item in cart_items` accumulation loop of `get_cart`. -/
def render_items (db : DB) (day : Day) : List CartItemRow → String → Except PyError String
  | [], acc => .ok acc
  | ci :: rest, acc =>
    match render_item db day ci with
    | .error e => .error e
    | .ok s => render_items db day rest (acc ++ s)

/-- Endpoint `get_cart` (GET `/carts/{cart_id}`).  Returns `.ok none` when the cart row
exists but has no line items (the Python function falls off the end and
returns `None`).  The settled/staged branch is Python's truthiness test
`if cart.payment:`, under which both a NULL payment and the empty string
take the staged branch. -/
def get_cart (db : DB) (day : Day) (cart_id : Nat) : Except PyError (Option String) :=
  match db.carts.find? (fun c => c.cart_id == cart_id) with
  | some cart =>
    let cart_items := db.cart_items.filter (fun ci => ci.cart_id == cart_id)
    if cart_items.isEmpty then .ok none
    else
      let header :=
        match cart.payment with
        | some pay =>
          if pay == "" then staged_header cart.cart_id cart.customer
          else settled_header cart.cart_id cart.customer pay
        | none => staged_header cart.cart_id cart.customer
      match render_items db day cart_items header with
      | .error e => .error e
      | .ok message => .ok (some (message.dropRight 1 ++ "."))
  | none => .ok (some (not_created_msg cart_id))

/-- Endpoint `create_cart` (POST `/carts/`): insert a cart row, return its id. -/
def create_cart (db : DB) (customer : String) : DB × Nat :=
  let cart_id := db.next_cart_id
  ({ db with
      carts := db.carts ++ [⟨cart_id, customer, none, none⟩],
      next_cart_id := cart_id + 1 }, cart_id)

/-- Endpoint `set_item_quantity` (POST `/carts/{cart_id}/items/{item_sku}`): a plain
`INSERT INTO cart_items`, with no conflict handling. -/
def set_item_quantity (db : DB) (cart_id : Nat) (item_sku : String) (quantity : Int) : DB :=
  { db with
      cart_items := db.cart_items ++ [⟨db.next_item_id, cart_id, item_sku, quantity⟩],
      next_item_id := db.next_item_id + 1 }

/-- The statement `UPDATE potions SET {day}_sold = {day}_sold + :num_sold WHERE
sku = :sku` over the whole table. -/
def update_potions (pots : List PotionRow) (s0 : String) (day : Day) (q : Int) :
    List PotionRow :=
  pots.map (fun p => if p.sku == s0 then add_sold p day q else p)

/-- The per-line-item body of the `checkout` loop, threading the open
transaction's state and the two accumulators.  `db0` is the last committed
state: the `get_cart(cart_id)` calls made inside `checkout` run on their own
connection and therefore see `db0`, not the uncommitted writes. -/
def checkoutLoop (db0 : DB) (day : Day) (cart_id : Nat) :
    List CartItemRow → DB → Int → Int → Except PyError (DB × Int × Int)
  | [], db, tp, tg => .ok (db, tp, tg)
  | it :: rest, db, tp, tg =>
    match db.potions.find? (fun p => p.sku == it.sku) with
    | none => .error .attributeErrorNone
    | some potion =>
      match get_cart db0 day cart_id with
      | .error e => .error e
      | .ok desc =>
        let tx_id := db.next_ptx_id
        let db' : DB :=
          { db with
              potion_transactions := db.potion_transactions ++ [⟨tx_id, desc⟩],
              potion_entries := db.potion_entries ++ [⟨it.sku, -it.quantity, tx_id⟩],
              next_ptx_id := tx_id + 1,
              potions := update_potions db.potions it.sku day it.quantity }
        checkoutLoop db0 day cart_id rest db' (tp + it.quantity)
          (tg + it.quantity * price_of potion day)

/-- Endpoint `checkout` (POST `/carts/{cart_id}/checkout`).  The `UPDATE carts …
RETURNING t.id` returns no row when the cart id is unknown, so `.first().id`
raises and the whole transaction rolls back (modelled as an error with the
state unchanged). -/
def checkout (db : DB) (day : Day) (cart_id : Nat) (payment : String) :
    Except PyError (DB × Int × Int) :=
  match db.carts.find? (fun c => c.cart_id == cart_id) with
  | none => .error .attributeErrorNone
  | some _ =>
    let gtid := db.next_gtx_id
    let db1 : DB :=
      { db with
          global_transactions := db.global_transactions ++ [⟨gtid, none, db.now⟩],
          next_gtx_id := gtid + 1,
          now := db.now + 1,
          carts := db.carts.map
            (fun c => if c.cart_id == cart_id then
                { c with payment := some payment,
                         global_inventory_transaction_id := some gtid }
              else c) }
    let items := db1.cart_items.filter (fun ci => ci.cart_id == cart_id)
    match checkoutLoop db day cart_id items db1 0 0 with
    | .error e => .error e
    | .ok (db2, tp, tg) =>
      match get_cart db day cart_id with
      | .error e => .error e
      | .ok desc =>
        let db3 : DB :=
          { db2 with
              global_transactions := db2.global_transactions.map
                (fun t => if t.id == gtid then { t with description := desc } else t),
              global_entries := db2.global_entries ++ [⟨tg, gtid⟩] }
        .ok (db3, tp, tg)

/-- The `search_sort_options` enum of the source. -/
inductive search_sort_options where
  | customer_name | item_sku | line_item_total | timestamp
deriving DecidableEq

/-- The `search_sort_order` enum of the source. -/
inductive search_sort_order where
  | asc | desc
deriving DecidableEq

/-- One row of the `search_orders` join. -/
structure SearchRow where
  line_item_id : Nat
  item_sku : String
  customer_name : String
  line_item_total : Int
  timestamp : Nat
deriving DecidableEq

/-- The response shape of `search_orders`. -/
structure SearchResult where
  previous : String
  next : String
  results : List SearchRow
deriving DecidableEq

/-- The `cart_items ⋈ carts ⋈ global_inventory_transactions ⋈
global_inventory_entries` join of `search_orders`. -/
def joined_rows (db : DB) : List SearchRow :=
  db.cart_items.flatMap (fun ci =>
    (db.carts.filter (fun c => c.cart_id == ci.cart_id)).flatMap (fun c =>
      (db.global_transactions.filter
          (fun t => c.global_inventory_transaction_id == some t.id)).flatMap (fun t =>
        (db.global_entries.filter
            (fun e => e.global_inventory_transaction_id == t.id)).map (fun e =>
          ⟨ci.items_id, ci.sku, c.customer, e.change_gold, t.created_at⟩))))

/-- Case-insensitive substring test: SQL `column ILIKE '%pat%'`. -/
def ilike (s pat : String) : Bool :=
  let l := s.data.map Char.toLower
  let p := pat.data.map Char.toLower
  (List.range (l.length + 1)).any (fun i => p.isPrefixOf (l.drop i))

/-- The `where_message` construction of `search_orders`: filter by customer
name and/or potion sku when the respective argument is nonempty. -/
def row_matches (customer_name potion_sku : String) (r : SearchRow) : Bool :=
  if customer_name ≠ "" ∧ potion_sku ≠ "" then
    ilike r.customer_name customer_name && ilike r.item_sku potion_sku
  else if customer_name ≠ "" then ilike r.customer_name customer_name
  else if potion_sku ≠ "" then ilike r.item_sku potion_sku
  else true

/-- Lexicographic order on strings by code point, for `ORDER BY` on text. -/
def charListLe : List Char → List Char → Bool
  | [], _ => true
  | _ :: _, [] => false
  | a :: l1, b :: l2 =>
    if a.val < b.val then true
    else if b.val < a.val then false
    else charListLe l1 l2

/-- String comparison used by the sort. -/
def strLe (a b : String) : Bool := charListLe a.data b.data

/-- The `ORDER BY {sort_col}` key comparison. -/
def col_le (col : search_sort_options) (a b : SearchRow) : Bool :=
  match col with
  | .customer_name => strLe a.customer_name b.customer_name
  | .item_sku => strLe a.item_sku b.item_sku
  | .line_item_total => a.line_item_total ≤ b.line_item_total
  | .timestamp => a.timestamp ≤ b.timestamp

/-- The `ORDER BY {sort_col} {sort_order}` comparison. -/
def sort_le (col : search_sort_options) (ord : search_sort_order) (a b : SearchRow) : Bool :=
  match ord with
  | .asc => col_le col a b
  | .desc => col_le col b a

/-- The filtered and sorted row stream the `search_orders` query paginates. -/
def search_rows (db : DB) (customer_name potion_sku : String)
    (sort_col : search_sort_options) (sort_order : search_sort_order) : List SearchRow :=
  ((joined_rows db).filter (row_matches customer_name potion_sku)).mergeSort
    (sort_le sort_col sort_order)

/-- Python `int(...)` on the decimal digit strings the pagination produces
(cursors are offsets the endpoint itself rendered with `str`). -/
def strToNat (s : String) : Nat :=
  s.data.foldl (fun n c => n * 10 + (c.toNat - 48)) 0

/-- Endpoint `search_orders` (GET `/carts/search/`): `LIMIT 6 OFFSET current`, return
at most 5 results, and cursor bookkeeping. -/
def search_orders (db : DB) (customer_name potion_sku search_page : String)
    (sort_col : search_sort_options) (sort_order : search_sort_order) : SearchResult :=
  let current : Nat := if search_page == "" then 0 else strToNat search_page
  let fetched := ((search_rows db customer_name potion_sku sort_col sort_order).drop
    current).take 6
  let results := fetched.take 5
  let previousI : Int := (current : Int) - 5
  let previous := if previousI < 0 then "" else toString previousI
  let next := if fetched.length < 6 then "" else toString (current + 5)
  ⟨previous, next, results⟩

/-- A row of the `potion_inventory` table read by `get_catalog`. -/
structure PotionInvRow where
  sku : String
  potion_type : List Int
  num_potion : Int
  num_ml : Int
  price : Int
deriving DecidableEq

/-- One entry of the catalog response. -/
structure CatalogEntry where
  sku : String
  name : String
  quantity : Int
  price : Int
  potion_type : List Int
deriving DecidableEq

/-- The dict `get_catalog` appends for one inventory row: the displayed
quantity is clamped to 10000. -/
def mkCatalogEntry (p : PotionInvRow) : CatalogEntry :=
  ⟨p.sku, p.sku, if p.num_potion ≤ 10000 then p.num_potion else 10000, p.price, p.potion_type⟩

/-- The `for potion in potion_inventory` loop of `get_catalog`. -/
def catalogLoop : List PotionInvRow → List CatalogEntry → List CatalogEntry
  | [], catalog => catalog
  | p :: rest, catalog =>
    if catalog.length < 6 ∧ p.num_potion ≠ 0 then
      catalogLoop rest (catalog ++ [mkCatalogEntry p])
    else catalogLoop rest catalog

/-- Endpoint `get_catalog` (GET `/catalog/`): rows ordered by `num_potion DESC`, then
the filtering loop. -/
def get_catalog (potion_inventory : List PotionInvRow) : List CatalogEntry :=
  catalogLoop (potion_inventory.mergeSort
    (fun a b => decide (b.num_potion ≤ a.num_potion))) []

/-- Decidable equality for settlement results, so concrete runs can be
checked by `decide`. -/
instance {ε α : Type} [DecidableEq ε] [DecidableEq α] : DecidableEq (Except ε α) :=
  fun a b =>
    match a, b with
    | .ok x, .ok y =>
      if h : x = y then .isTrue (by rw [h]) else .isFalse (fun hc => h (Except.ok.inj hc))
    | .error x, .error y =>
      if h : x = y then .isTrue (by rw [h]) else .isFalse (fun hc => h (Except.error.inj hc))
    | .ok _, .error _ => .isFalse (fun hc => Except.noConfusion hc)
    | .error _, .ok _ => .isFalse (fun hc => Except.noConfusion hc)

/-- The line items of one cart: `SELECT sku, quantity FROM cart_items WHERE
cart_id = :cart_id` (also the row set `get_cart` iterates over). -/
def items_of (db : DB) (cart_id : Nat) : List CartItemRow :=
  db.cart_items.filter (fun ci => ci.cart_id == cart_id)

/-- Sum of the quantities of a list of line items (the `total_potions_bought`
accumulation). -/
def sumQ : List CartItemRow → Int
  | [] => 0
  | it :: rest => it.quantity + sumQ rest

/-- Total quantity of one sku inside a list of line items. -/
def qty_of_sku : List CartItemRow → String → Int
  | [], _ => 0
  | it :: rest, s => (if it.sku == s then it.quantity else 0) + qty_of_sku rest s

/-- The `{day}_price` of the potion row of one sku (0 when the sku has no
row; `checkout` errors before ever using that default). -/
def price_of_sku (pots : List PotionRow) (s : String) (day : Day) : Int :=
  match pots.find? (fun p => p.sku == s) with
  | some p => price_of p day
  | none => 0

/-- The `{day}_sold` counter of the potion row of one sku (0 when absent). -/
def sold_of_sku (pots : List PotionRow) (s : String) (day : Day) : Int :=
  match pots.find? (fun p => p.sku == s) with
  | some p => sold_of p day
  | none => 0

/-- The `total_gold_paid` accumulation: quantity times that day's price,
summed over the line items. -/
def sumGold (pots : List PotionRow) (day : Day) : List CartItemRow → Int
  | [] => 0
  | it :: rest => it.quantity * price_of_sku pots it.sku day + sumGold pots day rest

/-- The potion entries a checkout appends: `-quantity` per line item, each
under its own potion transaction with consecutive ids from `start`. -/
def entriesFrom (start : Nat) : List CartItemRow → List PotionEntry
  | [] => []
  | it :: rest => ⟨it.sku, -it.quantity, start⟩ :: entriesFrom (start + 1) rest

/-- The potion transactions a checkout appends: one per line item, ids
consecutive from `start`, all carrying the same cart rendering `d`. -/
def txsFrom (start : Nat) (d : Option String) : List CartItemRow → List PotionTransaction
  | [] => []
  | _ :: rest => ⟨start, d⟩ :: txsFrom (start + 1) d rest

/-- A sequence of checkout requests `(day, cart_id, payment)`, each run only
when the previous one succeeded. -/
def run_checkouts (db : DB) : List (Day × Nat × String) → Except PyError DB
  | [] => .ok db
  | (day, cid, pay) :: rest =>
    match checkout db day cid pay with
    | .error e => .error e
    | .ok (db', _, _) => run_checkouts db' rest

/-- Total quantity of one sku sold across a sequence of checkouts, computed
from the (never-mutated) cart line items. -/
def total_sold (cart_items : List CartItemRow) (sku : String) :
    List (Day × Nat × String) → Int
  | [] => 0
  | (_, cid, _) :: rest =>
    qty_of_sku (cart_items.filter (fun ci => ci.cart_id == cid)) sku +
      total_sold cart_items sku rest

/-- Example potion row: RED_POTION, 50 gold every day except 60 on Tuesday. -/
def exPotRED : PotionRow :=
  ⟨"RED_POTION", [100, 0, 0, 0], 50, 60, 50, 50, 50, 50, 50, 0, 0, 0, 0, 0, 0, 0⟩

/-- Example potion row: BLUE_POTION, 30 gold every day. -/
def exPotBLUE : PotionRow :=
  ⟨"BLUE_POTION", [0, 0, 100, 0], 30, 30, 30, 30, 30, 30, 30, 0, 0, 0, 0, 0, 0, 0⟩

/-- Example state: Alice's cart holds 3 RED_POTION and is not settled. -/
def exDB1 : DB :=
  ⟨[⟨1, "Alice", none, none⟩], [⟨1, 1, "RED_POTION", 3⟩], [exPotRED, exPotBLUE],
    [], [], [], [], 2, 2, 1, 1, 100⟩

/-- The rendering of `exDB1`'s cart before settlement. -/
def msg1 : String :=
  "Cart #1: Alice is seeking to buy: 3 RED_POTION ([100, 0, 0, 0]) for 150 gold (0 remaining)."

/-- The state `checkout` leaves behind for `exDB1` on Monday. -/
def chk1db : DB :=
  match checkout exDB1 Day.mon 1 "credit_card" with
  | .ok (db, _, _) => db
  | .error _ => exDB1

/-- Example state: Bob's cart is already settled (payment and transaction
reference set, ledger rows written). -/
def exDB2 : DB :=
  ⟨[⟨1, "Bob", some "visa", some 1⟩], [⟨1, 1, "RED_POTION", 3⟩], [exPotRED, exPotBLUE],
    [⟨1, some "old"⟩], [⟨"RED_POTION", -3, 1⟩], [⟨1, some "old", 50⟩], [⟨150, 1⟩],
    2, 2, 2, 2, 60⟩

/-- The state a second `checkout` of `exDB2`'s settled cart leaves behind. -/
def chk2db : DB :=
  match checkout exDB2 Day.mon 1 "coin" with
  | .ok (db, _, _) => db
  | .error _ => exDB2

/-- Example state: Bob's cart was checked out with the empty string as
payment — payment and transaction reference are set (non-null), yet
`if cart.payment:` is falsy. -/
def exDB9 : DB :=
  ⟨[⟨1, "Bob", some "", some 1⟩], [⟨1, 1, "RED_POTION", 3⟩], [exPotRED, exPotBLUE],
    [⟨1, some "old"⟩], [⟨"RED_POTION", -3, 1⟩], [⟨1, some "old", 50⟩], [⟨150, 1⟩],
    2, 2, 2, 2, 60⟩

/-- The rendering of `exDB9`'s cart: the staged phrasing, despite the cart
being settled. -/
def msg9 : String :=
  "Cart #1: Bob is seeking to buy: 3 RED_POTION ([100, 0, 0, 0]) for 150 gold (-3 remaining)."

/-- Example state: Alice's cart exists and is still empty. -/
def exDB3 : DB :=
  ⟨[⟨1, "Alice", none, none⟩], [], [exPotRED, exPotBLUE], [], [], [], [], 2, 1, 1, 1, 100⟩

/-- State `exDB3` after setting quantity 2 and then quantity 3 for the same sku. -/
def exDB3twice : DB :=
  set_item_quantity (set_item_quantity exDB3 1 "RED_POTION" 2) 1 "RED_POTION" 3

/-- The state `checkout` leaves behind for `exDB3twice` on Monday. -/
def chk3db : DB :=
  match checkout exDB3twice Day.mon 1 "credit_card" with
  | .ok (db, _, _) => db
  | .error _ => exDB3twice

/-- Example state for search: one settled cart of alice with 12 line items,
whose join therefore yields 12 matching historical rows. -/
def exDB5 : DB :=
  ⟨[⟨1, "alice", some "visa", some 1⟩],
    (List.range 12).map (fun i => ⟨i + 1, 1, s!"SKU{i}", 1⟩),
    [], [], [], [⟨1, some "order", 400⟩], [⟨999, 1⟩], 2, 13, 1, 2, 500⟩

/-- Example state for conservation: two unsettled carts over two potions. -/
def exDB7 : DB :=
  ⟨[⟨1, "Alice", none, none⟩, ⟨2, "Bob", none, none⟩],
    [⟨1, 1, "RED_POTION", 3⟩, ⟨2, 2, "RED_POTION", 4⟩, ⟨3, 2, "BLUE_POTION", 1⟩],
    [exPotRED, exPotBLUE], [], [], [], [], 3, 4, 1, 1, 100⟩

/-- The checkout sequence run against `exDB7`. -/
def exRuns7 : List (Day × Nat × String) :=
  [(Day.mon, 1, "cc"), (Day.tue, 2, "cash")]

/-- The state `run_checkouts` leaves behind for `exDB7`. -/
def run7db : DB :=
  match run_checkouts exDB7 exRuns7 with
  | .ok db => db
  | .error _ => exDB7

/-! Helper lemmas about the sold-counter update. -/

theorem sku_add_sold (p : PotionRow) (day : Day) (q : Int) :
    (add_sold p day q).sku = p.sku := by
  cases day <;> rfl

theorem price_of_add_sold (p : PotionRow) (day : Day) (q : Int) (dd : Day) :
    price_of (add_sold p day q) dd = price_of p dd := by
  cases day <;> cases dd <;> rfl

theorem sold_of_add_sold_same (p : PotionRow) (day : Day) (q : Int) :
    sold_of (add_sold p day q) day = sold_of p day + q := by
  cases day <;> rfl

theorem find?_update_potions (pots : List PotionRow) (s0 : String) (day : Day) (q : Int)
    (s : String) :
    (update_potions pots s0 day q).find? (fun p => p.sku == s)
      = (pots.find? (fun p => p.sku == s)).map
          (fun p => if p.sku == s0 then add_sold p day q else p) := by
  unfold update_potions
  rw [List.find?_map]
  have hcomp : ((fun p => p.sku == s) ∘ (fun p => if p.sku == s0 then add_sold p day q else p))
      = (fun p : PotionRow => p.sku == s) := by
    funext p
    simp only [Function.comp_apply]
    split
    · rw [sku_add_sold]
    · rfl
  rw [hcomp]

theorem price_of_sku_update (pots : List PotionRow) (s0 : String) (day : Day) (q : Int)
    (s : String) (dd : Day) :
    price_of_sku (update_potions pots s0 day q) s dd = price_of_sku pots s dd := by
  unfold price_of_sku
  rw [find?_update_potions]
  cases h : pots.find? (fun p => p.sku == s) with
  | none => rfl
  | some p =>
    simp only [Option.map_some']
    split
    · rw [price_of_add_sold]
    · rfl

theorem isSome_find?_update (pots : List PotionRow) (s0 : String) (day : Day) (q : Int)
    (s : String) :
    ((update_potions pots s0 day q).find? (fun p => p.sku == s)).isSome
      = (pots.find? (fun p => p.sku == s)).isSome := by
  rw [find?_update_potions]
  cases pots.find? (fun p => p.sku == s) <;> rfl

theorem sold_of_sku_update (pots : List PotionRow) (s0 : String) (day : Day) (q : Int)
    (s : String) (hfound : (pots.find? (fun p => p.sku == s0)).isSome = true) :
    sold_of_sku (update_potions pots s0 day q) s day
      = sold_of_sku pots s day + (if s0 == s then q else 0) := by
  unfold sold_of_sku
  rw [find?_update_potions]
  cases h : pots.find? (fun p => p.sku == s) with
  | none =>
    by_cases hss : s0 = s
    · subst hss; rw [h] at hfound; simp at hfound
    · have hb : (s0 == s) = false := by simp [hss]
      simp [hb]
  | some p =>
    have hpe : p.sku = s := by simpa using List.find?_some h
    simp only [Option.map_some']
    by_cases hss : s0 = s
    · subst hss
      simp [hpe, sold_of_add_sold_same]
    · have h2 : (s0 == s) = false := by simp [hss]
      simp [hpe, Ne.symm hss, h2]

theorem sumGold_congr (pots1 pots2 : List PotionRow) (day : Day)
    (h : ∀ s dd, price_of_sku pots1 s dd = price_of_sku pots2 s dd) :
    ∀ items, sumGold pots1 day items = sumGold pots2 day items := by
  intro items
  induction items with
  | nil => rfl
  | cons it rest ih => simp only [sumGold, h, ih]

theorem entry_sum_append (l1 l2 : List PotionEntry) :
    entry_sum (l1 ++ l2) = entry_sum l1 + entry_sum l2 := by
  induction l1 with
  | nil => simp [entry_sum]
  | cons e rest ih =>
    simp only [List.cons_append, entry_sum, List.append_eq, ih]
    omega

theorem entriesFrom_length (items : List CartItemRow) :
    ∀ start, (entriesFrom start items).length = items.length := by
  induction items with
  | nil => intro start; rfl
  | cons it rest ih => intro start; simp [entriesFrom, ih]

theorem txsFrom_length (items : List CartItemRow) (d : Option String) :
    ∀ start, (txsFrom start d items).length = items.length := by
  induction items with
  | nil => intro start; rfl
  | cons it rest ih => intro start; simp [txsFrom, ih]

theorem entriesFrom_filter_sum (sku : String) (items : List CartItemRow) :
    ∀ start, entry_sum ((entriesFrom start items).filter (fun e => e.potion_sku == sku))
      = -(qty_of_sku items sku) := by
  induction items with
  | nil => intro start; simp [entriesFrom, qty_of_sku, entry_sum]
  | cons it rest ih =>
    intro start
    simp only [entriesFrom, qty_of_sku, List.filter_cons]
    by_cases hsk : (it.sku == sku) = true
    · simp [hsk, entry_sum, ih]
      omega
    · have hsk' : (it.sku == sku) = false := by simpa using hsk
      simp [hsk', entry_sum, ih]

/-- A successful run of the `checkout` line-item loop appends one potion
transaction plus one `-quantity` potion entry per line item, accumulates the
two totals, bumps the sold counters, and touches nothing else. -/
theorem checkoutLoop_ok (db0 : DB) (day : Day) (cid : Nat) (d : Option String)
    (hd : get_cart db0 day cid = .ok d) :
    ∀ (items : List CartItemRow) (db : DB) (tp tg : Int) (db' : DB) (tp' tg' : Int),
    checkoutLoop db0 day cid items db tp tg = .ok (db', tp', tg') →
    tp' = tp + sumQ items ∧
    tg' = tg + sumGold db.potions day items ∧
    db'.potion_entries = db.potion_entries ++ entriesFrom db.next_ptx_id items ∧
    db'.potion_transactions = db.potion_transactions ++ txsFrom db.next_ptx_id d items ∧
    db'.next_ptx_id = db.next_ptx_id + items.length ∧
    db'.carts = db.carts ∧
    db'.cart_items = db.cart_items ∧
    db'.global_transactions = db.global_transactions ∧
    db'.global_entries = db.global_entries ∧
    db'.next_cart_id = db.next_cart_id ∧
    db'.next_item_id = db.next_item_id ∧
    db'.next_gtx_id = db.next_gtx_id ∧
    db'.now = db.now ∧
    (∀ s, sold_of_sku db'.potions s day = sold_of_sku db.potions s day + qty_of_sku items s) ∧
    (∀ s dd, price_of_sku db'.potions s dd = price_of_sku db.potions s dd) ∧
    (∀ s, ((db'.potions.find? (fun p => p.sku == s)).isSome)
        = ((db.potions.find? (fun p => p.sku == s)).isSome)) := by
  intro items
  induction items with
  | nil =>
    intro db tp tg db' tp' tg' h
    simp only [checkoutLoop, Except.ok.injEq, Prod.mk.injEq] at h
    obtain ⟨hdb, htp, htg⟩ := h
    subst hdb; subst htp; subst htg
    simp [sumQ, sumGold, entriesFrom, txsFrom, qty_of_sku]
  | cons it rest ih =>
    intro db tp tg db' tp' tg' h
    simp only [checkoutLoop] at h
    cases hfind : db.potions.find? (fun p => p.sku == it.sku) with
    | none => rw [hfind] at h; cases h
    | some potion =>
      rw [hfind, hd] at h
      dsimp only at h
      obtain ⟨H1, H2, H3, H4, H5, H6, H7, H8, H9, H10, H11, H12, H13, H14, H15, H16⟩ :=
        ih _ _ _ _ _ _ h
      dsimp only at H2 H3 H4 H5 H6 H7 H8 H9 H10 H11 H12 H13 H14 H15 H16
      have hfound : (db.potions.find? (fun p => p.sku == it.sku)).isSome = true := by
        rw [hfind]; rfl
      refine ⟨?_, ?_, ?_, ?_, ?_, H6, H7, H8, H9, H10, H11, H12, H13, ?_, ?_, ?_⟩
      · rw [H1, sumQ]; omega
      · have hsg : sumGold (update_potions db.potions it.sku day it.quantity) day rest
            = sumGold db.potions day rest :=
          sumGold_congr _ _ day (fun s dd => price_of_sku_update db.potions it.sku day
            it.quantity s dd) rest
        have hP : price_of potion day = price_of_sku db.potions it.sku day := by
          unfold price_of_sku; rw [hfind]
        rw [H2, hsg, hP, sumGold]
        ring
      · rw [H3, List.append_assoc, List.singleton_append, entriesFrom]
      · rw [H4, List.append_assoc, List.singleton_append, txsFrom]
      · rw [H5, List.length_cons]; omega
      · intro s
        rw [H14 s, sold_of_sku_update db.potions it.sku day it.quantity s hfound, qty_of_sku]
        ring
      · intro s dd
        rw [H15 s dd, price_of_sku_update]
      · intro s
        rw [H16 s, isSome_find?_update]

/-- A successful `checkout` fully characterized against the entry state:
totals, appended ledger rows, cart update, and sold counters. -/
theorem checkout_ok (db : DB) (day : Day) (cid : Nat) (pay : String)
    (db' : DB) (tp tg : Int)
    (h : checkout db day cid pay = .ok (db', tp, tg)) :
    ∃ d, get_cart db day cid = .ok d ∧
    tp = sumQ (items_of db cid) ∧
    tg = sumGold db.potions day (items_of db cid) ∧
    db'.potion_entries = db.potion_entries ++ entriesFrom db.next_ptx_id (items_of db cid) ∧
    db'.potion_transactions
      = db.potion_transactions ++ txsFrom db.next_ptx_id d (items_of db cid) ∧
    db'.next_ptx_id = db.next_ptx_id + (items_of db cid).length ∧
    db'.cart_items = db.cart_items ∧
    db'.carts = db.carts.map (fun c => if c.cart_id == cid then
        { c with payment := some pay, global_inventory_transaction_id := some db.next_gtx_id }
      else c) ∧
    db'.global_transactions
      = (db.global_transactions ++ [(⟨db.next_gtx_id, none, db.now⟩ : GlobalTransaction)]).map
        (fun t => if t.id == db.next_gtx_id then { t with description := d } else t) ∧
    db'.global_entries = db.global_entries ++ [⟨tg, db.next_gtx_id⟩] ∧
    db'.next_gtx_id = db.next_gtx_id + 1 ∧
    (∀ s, sold_of_sku db'.potions s day = sold_of_sku db.potions s day
        + qty_of_sku (items_of db cid) s) := by
  unfold checkout at h
  cases hfc : db.carts.find? (fun c => c.cart_id == cid) with
  | none => rw [hfc] at h; cases h
  | some c =>
    rw [hfc] at h
    dsimp only at h
    cases hloop : checkoutLoop db day cid
        (db.cart_items.filter (fun ci => ci.cart_id == cid))
        { db with
            global_transactions :=
              db.global_transactions ++ [⟨db.next_gtx_id, none, db.now⟩],
            next_gtx_id := db.next_gtx_id + 1,
            now := db.now + 1,
            carts := db.carts.map (fun c => if c.cart_id == cid then
                { c with payment := some pay,
                         global_inventory_transaction_id := some db.next_gtx_id }
              else c) } 0 0 with
    | error e => rw [hloop] at h; cases h
    | ok trip =>
      obtain ⟨db2, tp2, tg2⟩ := trip
      rw [hloop] at h
      dsimp only at h
      cases hgc : get_cart db day cid with
      | error e => rw [hgc] at h; cases h
      | ok d =>
        rw [hgc] at h
        dsimp only at h
        simp only [Except.ok.injEq, Prod.mk.injEq] at h
        obtain ⟨hdb, htp, htg⟩ := h
        subst hdb; subst htp; subst htg
        obtain ⟨L1, L2, L3, L4, L5, L6, L7, L8, L9, L10, L11, L12, L13, L14, L15, L16⟩ :=
          checkoutLoop_ok db day cid d hgc _ _ _ _ _ _ _ hloop
        dsimp only at L2 L3 L4 L5 L6 L7 L8 L9 L10 L11 L12 L13 L14 L15 L16
        refine ⟨d, rfl, ?_, ?_, ?_, ?_, ?_, ?_, ?_, ?_, ?_, ?_, ?_⟩
        · rw [L1]; unfold items_of; omega
        · rw [L2]; unfold items_of; omega
        · show db2.potion_entries = _
          rw [L3]; rfl
        · show db2.potion_transactions = _
          rw [L4]; rfl
        · show db2.next_ptx_id = _
          rw [L5]; rfl
        · exact L7
        · exact L6
        · show db2.global_transactions.map
              (fun t => if t.id == db.next_gtx_id then { t with description := d } else t) = _
          rw [L8]
        · show db2.global_entries ++ [⟨tg2, db.next_gtx_id⟩] = _
          rw [L9]
        · exact L12
        · exact L14

/-- Updating descriptions by id leaves every transaction whose id differs
unchanged. -/
theorem map_desc_id (g : Nat) (d : Option String) :
    ∀ (gts : List GlobalTransaction), (∀ t ∈ gts, t.id ≠ g) →
    gts.map (fun t => if t.id == g then { t with description := d } else t) = gts := by
  intro gts
  induction gts with
  | nil => intro h; rfl
  | cons t rest ih =>
    intro h
    have hf : (t.id == g) = false := by simpa using h t (List.mem_cons_self t rest)
    rw [List.map_cons, hf, ih (fun x hx => h x (List.mem_cons_of_mem t hx))]
    rfl

/-- The description-update of the freshly created global transaction leaves
every pre-existing transaction (whose id is not the fresh one) unchanged and
sets the fresh row's description. -/
theorem global_transactions_update (gts : List GlobalTransaction) (g : Nat) (now : Nat)
    (d : Option String) (hfresh : ∀ t ∈ gts, t.id ≠ g) :
    (gts ++ [(⟨g, none, now⟩ : GlobalTransaction)]).map
        (fun t => if t.id == g then { t with description := d } else t)
      = gts ++ [(⟨g, d, now⟩ : GlobalTransaction)] := by
  rw [List.map_append]
  have h1 := map_desc_id g d gts hfresh
  have h2 : [(⟨g, none, now⟩ : GlobalTransaction)].map
      (fun t => if t.id == g then { t with description := d } else t)
      = [(⟨g, d, now⟩ : GlobalTransaction)] := by
    simp
  rw [h1, h2]

/-- C1: a checkout of an existing cart returns `total_potions_bought` equal to
the sum of the cart's line-item quantities and `total_gold_paid` equal to the
sum of quantity times that day's price; it appends one potion transaction with
one `-quantity` potion entry per line item, bumps each item's per-day sold
counter by its quantity, and appends one gold entry of `+total_gold_paid`
under the fresh global transaction. -/
theorem C1_checkout_totals_and_ledger (db : DB) (day : Day) (cid : Nat) (pay : String)
    (db' : DB) (tp tg : Int) (d : Option String)
    (h : checkout db day cid pay = .ok (db', tp, tg))
    (hd : get_cart db day cid = .ok d)
    (hfresh : ∀ t ∈ db.global_transactions, t.id ≠ db.next_gtx_id) :
    tp = sumQ (items_of db cid) ∧
    tg = sumGold db.potions day (items_of db cid) ∧
    db'.potion_entries = db.potion_entries ++ entriesFrom db.next_ptx_id (items_of db cid) ∧
    db'.potion_transactions
      = db.potion_transactions ++ txsFrom db.next_ptx_id d (items_of db cid) ∧
    (∀ s, sold_of_sku db'.potions s day
        = sold_of_sku db.potions s day + qty_of_sku (items_of db cid) s) ∧
    db'.global_transactions
      = db.global_transactions ++ [(⟨db.next_gtx_id, d, db.now⟩ : GlobalTransaction)] ∧
    db'.global_entries = db.global_entries ++ [(⟨tg, db.next_gtx_id⟩ : GlobalEntry)] := by
  obtain ⟨d2, hd2, P1, P2, P3, P4, P5, P6, P7, P8, P9, P10, P11⟩ :=
    checkout_ok db day cid pay db' tp tg h
  rw [hd] at hd2
  have hdd : d = d2 := Except.ok.inj hd2
  subst hdd
  refine ⟨P1, P2, P3, P4, P11, ?_, P9⟩
  rw [P8, global_transactions_update db.global_transactions db.next_gtx_id db.now d hfresh]

/-- C4 (amended-free reading): the description persisted on the gold entry's
global transaction is exactly the `get_cart` rendering of the state the
checkout started from — the cart as it stood at step 1, before the payment
was written and before any potion entry decremented stock (the in-checkout
`get_cart` calls run on a separate connection and see only committed state). -/
theorem C4_description_from_entry_state (db : DB) (day : Day) (cid : Nat) (pay : String)
    (db' : DB) (tp tg : Int) (d : Option String)
    (h : checkout db day cid pay = .ok (db', tp, tg))
    (hd : get_cart db day cid = .ok d)
    (hfresh : ∀ t ∈ db.global_transactions, t.id ≠ db.next_gtx_id) :
    db'.global_entries = db.global_entries ++ [(⟨tg, db.next_gtx_id⟩ : GlobalEntry)] ∧
    db'.global_transactions
      = db.global_transactions ++ [(⟨db.next_gtx_id, d, db.now⟩ : GlobalTransaction)] ∧
    db'.potion_transactions
      = db.potion_transactions ++ txsFrom db.next_ptx_id d (items_of db cid) := by
  obtain ⟨d2, hd2, P1, P2, P3, P4, P5, P6, P7, P8, P9, P10, P11⟩ :=
    checkout_ok db day cid pay db' tp tg h
  rw [hd] at hd2
  have hdd : d = d2 := Except.ok.inj hd2
  subst hdd
  refine ⟨P9, ?_, P4⟩
  rw [P8, global_transactions_update db.global_transactions db.next_gtx_id db.now d hfresh]

/-- C2 (amended): `checkout` has no settlement guard.  Re-checking-out a cart
that already has a payment does not fail with any `CartAlreadySettled` error:
whenever it completes it overwrites the cart's payment/transaction reference
and appends a full additional set of ledger rows (one global transaction, one
gold entry, and one potion transaction + entry per line item). -/
theorem C2_amended_resettlement_appends (db : DB) (day : Day) (cid : Nat) (pay : String)
    (c : CartRow) (db' : DB) (tp tg : Int)
    (_hc : db.carts.find? (fun c2 => c2.cart_id == cid) = some c)
    (_hset : c.payment.isSome = true)
    (h : checkout db day cid pay = .ok (db', tp, tg)) :
    db'.global_transactions.length = db.global_transactions.length + 1 ∧
    db'.global_entries.length = db.global_entries.length + 1 ∧
    db'.potion_transactions.length
      = db.potion_transactions.length + (items_of db cid).length ∧
    db'.potion_entries.length = db.potion_entries.length + (items_of db cid).length ∧
    db'.carts = db.carts.map (fun c2 => if c2.cart_id == cid then
        { c2 with payment := some pay,
                  global_inventory_transaction_id := some db.next_gtx_id }
      else c2) := by
  obtain ⟨d, A1, A2, A3, A4, A5, A6, A7, A8, A9, A10, A11, A12⟩ :=
    checkout_ok db day cid pay db' tp tg h
  refine ⟨?_, ?_, ?_, ?_, A8⟩
  · rw [A9]; simp
  · rw [A10]; simp
  · rw [A5]; simp [txsFrom_length]
  · rw [A4]; simp [entriesFrom_length]

/-- One successful checkout moves the derived stock of every sku down by
exactly the quantity of that sku in the cart, and leaves `cart_items`
untouched. -/
theorem checkout_stock_delta (db : DB) (day : Day) (cid : Nat) (pay : String)
    (db' : DB) (tp tg : Int) (sku : String)
    (h : checkout db day cid pay = .ok (db', tp, tg)) :
    num_potion_of db' sku = num_potion_of db sku - qty_of_sku (items_of db cid) sku ∧
    db'.cart_items = db.cart_items := by
  obtain ⟨d, A1, A2, A3, A4, A5, A6, A7, A8, A9, A10, A11, A12⟩ :=
    checkout_ok db day cid pay db' tp tg h
  refine ⟨?_, A7⟩
  unfold num_potion_of
  rw [A4, List.filter_append, entry_sum_append, entriesFrom_filter_sum]
  omega

/-- Stock deltas accumulate over a successful checkout sequence, and
`cart_items` never changes. -/
theorem run_checkouts_delta (sku : String) :
    ∀ (cks : List (Day × Nat × String)) (db dbN : DB),
    run_checkouts db cks = .ok dbN →
    num_potion_of dbN sku = num_potion_of db sku - total_sold db.cart_items sku cks ∧
    dbN.cart_items = db.cart_items := by
  intro cks
  induction cks with
  | nil =>
    intro db dbN h
    simp only [run_checkouts, Except.ok.injEq] at h
    subst h
    simp [total_sold]
  | cons ck rest ih =>
    intro db dbN h
    obtain ⟨day, cid, pay⟩ := ck
    simp only [run_checkouts] at h
    cases hck : checkout db day cid pay with
    | error e => rw [hck] at h; cases h
    | ok trip =>
      obtain ⟨db1, tp, tg⟩ := trip
      rw [hck] at h
      dsimp only at h
      obtain ⟨hdel, hci⟩ := checkout_stock_delta db day cid pay db1 tp tg sku hck
      obtain ⟨ihdel, ihci⟩ := ih db1 dbN h
      rw [hci] at ihdel ihci
      refine ⟨?_, ihci⟩
      rw [ihdel, hdel, total_sold]
      have hitems : items_of db cid = db.cart_items.filter (fun ci => ci.cart_id == cid) := rfl
      rw [hitems]
      omega

/-- C7: starting from zero derived stock for a sku, after any sequence of
successful checkouts the derived stock (sum of potion-entry deltas) equals
the negation of the total quantity of that sku sold across the sequence. -/
theorem C7_conservation (db : DB) (cks : List (Day × Nat × String)) (dbN : DB) (sku : String)
    (h : run_checkouts db cks = .ok dbN) (h0 : num_potion_of db sku = 0) :
    num_potion_of dbN sku = -(total_sold db.cart_items sku cks) := by
  obtain ⟨hd, _⟩ := run_checkouts_delta sku cks db dbN h
  omega

/-- C8 (amended): `checkout` on an unknown cart id fails, but with the
untyped `None`-attribute error from `.first().id` on an empty result, not
with a discriminated `CartNotFound` error. -/
theorem C8_amended_unknown_cart_attribute_error (db : DB) (day : Day) (cid : Nat)
    (pay : String) (hc : db.carts.find? (fun c => c.cart_id == cid) = none) :
    checkout db day cid pay = .error .attributeErrorNone := by
  unfold checkout
  rw [hc]

/-- Dropping the final character of a string that ends in a comma (the
`message[:-1]` step of `get_cart`) recovers the part before the comma. -/
theorem dropRight_one_append_comma (X : String) : (X ++ ",").dropRight 1 = X := by
  obtain ⟨l⟩ := X
  show String.dropRight ⟨l ++ [',']⟩ 1 = ⟨l⟩
  simp only [String.dropRight, String.toSubstring, Substring.dropRight, Substring.prevn,
    Substring.prev, Substring.toString, Substring.bsize, String.endPos_eq,
    String.utf8Len_append, String.utf8Len_cons, String.utf8Len_nil]
  have h1 : ','.utf8Size = 1 := rfl
  simp only [h1, Nat.zero_add]
  rw [if_neg (by simp [String.Pos.ext_iff])]
  have h2 : ({ byteIdx := 0 } + { byteIdx := (String.utf8Len l + 1).sub 0 } : String.Pos)
      = ⟨String.utf8Len l + ','.utf8Size⟩ := by simp [String.Pos.ext_iff, h1]
  rw [h2, String.prev_of_valid l ',' []]
  have h5 := String.extract_of_valid [] l [',']
  simp only [List.nil_append, String.utf8Len_nil, Nat.zero_add] at h5
  convert h5 using 2
  simp [String.Pos.ext_iff]

/-- Each rendered line item ends in a comma. -/
theorem render_item_ok (db : DB) (day : Day) (ci : CartItemRow)
    (hf : (db.potions.find? (fun p => p.sku == ci.sku)).isSome = true) :
    ∃ r0, render_item db day ci = .ok (r0 ++ ",") := by
  obtain ⟨potion, hp⟩ := Option.isSome_iff_exists.mp hf
  unfold render_item
  rw [hp]
  dsimp only
  refine ⟨" " ++ toString ci.quantity ++ " " ++ ci.sku ++ " ("
    ++ pyListRepr potion.potion_type ++ ") for "
    ++ toString (ci.quantity * price_of potion day) ++ " gold ("
    ++ toString (num_potion_of db ci.sku) ++ " remaining)", ?_⟩
  simp only [String.append_assoc]
  rfl

/-- The `get_cart` accumulation loop appends a nonempty, comma-terminated
body to whatever heading it starts from. -/
theorem render_items_ok (db : DB) (day : Day) :
    ∀ (items : List CartItemRow) (acc : String),
    (∀ ci ∈ items, (db.potions.find? (fun p => p.sku == ci.sku)).isSome = true) →
    ∃ body, render_items db day items acc = .ok (acc ++ body) ∧
      (items ≠ [] → ∃ b0, body = b0 ++ ",") := by
  intro items
  induction items with
  | nil =>
    intro acc h
    exact ⟨"", by simp [render_items], by simp⟩
  | cons ci rest ih =>
    intro acc h
    have hci := h ci (List.mem_cons_self ci rest)
    obtain ⟨r0, hr⟩ := render_item_ok db day ci hci
    have hrest : ∀ x ∈ rest, (db.potions.find? (fun p => p.sku == x.sku)).isSome = true :=
      fun x hx => h x (List.mem_cons_of_mem ci hx)
    obtain ⟨body', hb', hcomma'⟩ := ih (acc ++ (r0 ++ ",")) hrest
    cases rest with
    | nil =>
      refine ⟨r0 ++ ",", ?_, fun _ => ⟨r0, rfl⟩⟩
      simp [render_items, hr]
    | cons c2 r2 =>
      refine ⟨(r0 ++ ",") ++ body', ?_, ?_⟩
      · have hstep : render_items db day (ci :: c2 :: r2) acc
            = render_items db day (c2 :: r2) (acc ++ (r0 ++ ",")) := by
          simp [render_items, hr]
        rw [hstep, hb', String.append_assoc]
      · intro _
        obtain ⟨b0', hb0'⟩ := hcomma' (by simp)
        refine ⟨(r0 ++ ",") ++ b0', ?_⟩
        rw [hb0']
        simp [String.append_assoc]

/-- Running `get_cart` on an existing, staged (no payment), nonempty cart whose skus
all exist: the message is the staged heading followed by the rendered items. -/
theorem get_cart_staged (db : DB) (day : Day) (cid : Nat) (c : CartRow)
    (hc : db.carts.find? (fun c2 => c2.cart_id == cid) = some c)
    (hpay : c.payment = none)
    (hne : items_of db cid ≠ [])
    (hsk : ∀ ci ∈ items_of db cid,
      (db.potions.find? (fun p => p.sku == ci.sku)).isSome = true) :
    ∃ rest, get_cart db day cid = .ok (some (staged_header c.cart_id c.customer ++ rest)) := by
  unfold get_cart
  rw [hc]
  dsimp only
  rw [show db.cart_items.filter (fun ci => ci.cart_id == cid) = items_of db cid from rfl]
  have hemp : (items_of db cid).isEmpty = false := by
    cases hl : items_of db cid with
    | nil => exact absurd hl hne
    | cons a l2 => rfl
  rw [hemp, hpay]
  dsimp only
  obtain ⟨body, hb, hcomma⟩ :=
    render_items_ok db day (items_of db cid) (staged_header c.cart_id c.customer) hsk
  obtain ⟨b0, hb0⟩ := hcomma hne
  rw [hb0] at hb
  refine ⟨b0 ++ ".", ?_⟩
  rw [hb]
  dsimp only
  rw [← String.append_assoc, dropRight_one_append_comma, String.append_assoc]
  rfl

/-- Running `get_cart` on a nonempty cart whose payment is the empty string:
`if cart.payment:` is falsy for `''`, so the message still uses the staged
heading even though the cart is settled. -/
theorem get_cart_staged_empty_payment (db : DB) (day : Day) (cid : Nat) (c : CartRow)
    (hc : db.carts.find? (fun c2 => c2.cart_id == cid) = some c)
    (hpay : c.payment = some "")
    (hne : items_of db cid ≠ [])
    (hsk : ∀ ci ∈ items_of db cid,
      (db.potions.find? (fun p => p.sku == ci.sku)).isSome = true) :
    ∃ rest, get_cart db day cid = .ok (some (staged_header c.cart_id c.customer ++ rest)) := by
  unfold get_cart
  rw [hc]
  dsimp only
  rw [show db.cart_items.filter (fun ci => ci.cart_id == cid) = items_of db cid from rfl]
  have hemp : (items_of db cid).isEmpty = false := by
    cases hl : items_of db cid with
    | nil => exact absurd hl hne
    | cons a l2 => rfl
  rw [hemp, hpay]
  dsimp only
  rw [if_pos (show (("" : String) == "") = true from rfl)]
  obtain ⟨body, hb, hcomma⟩ :=
    render_items_ok db day (items_of db cid) (staged_header c.cart_id c.customer) hsk
  obtain ⟨b0, hb0⟩ := hcomma hne
  rw [hb0] at hb
  refine ⟨b0 ++ ".", ?_⟩
  rw [hb]
  dsimp only
  rw [← String.append_assoc, dropRight_one_append_comma, String.append_assoc]
  rfl

/-- Running `get_cart` on a settled, nonempty cart whose payment string is
nonempty: the message is the settled heading (which carries the payment
string) followed by the rendered items. -/
theorem get_cart_settled (db : DB) (day : Day) (cid : Nat) (c : CartRow) (pay : String)
    (hc : db.carts.find? (fun c2 => c2.cart_id == cid) = some c)
    (hpay : c.payment = some pay)
    (hpne : pay ≠ "")
    (hne : items_of db cid ≠ [])
    (hsk : ∀ ci ∈ items_of db cid,
      (db.potions.find? (fun p => p.sku == ci.sku)).isSome = true) :
    ∃ rest, get_cart db day cid
      = .ok (some (settled_header c.cart_id c.customer pay ++ rest)) := by
  unfold get_cart
  rw [hc]
  dsimp only
  rw [show db.cart_items.filter (fun ci => ci.cart_id == cid) = items_of db cid from rfl]
  have hemp : (items_of db cid).isEmpty = false := by
    cases hl : items_of db cid with
    | nil => exact absurd hl hne
    | cons a l2 => rfl
  rw [hemp, hpay]
  dsimp only
  rw [if_neg (show ¬ ((pay == "") = true) from fun hcon => hpne (by simpa using hcon))]
  obtain ⟨body, hb, hcomma⟩ :=
    render_items_ok db day (items_of db cid) (settled_header c.cart_id c.customer pay) hsk
  obtain ⟨b0, hb0⟩ := hcomma hne
  rw [hb0] at hb
  refine ⟨b0 ++ ".", ?_⟩
  rw [hb]
  dsimp only
  rw [← String.append_assoc, dropRight_one_append_comma, String.append_assoc]
  rfl

/-- C9 (amended): `get_cart` branches on the Python truthiness of the
payment column.  An unknown cart id gives the not-created message; an
existing nonempty cart whose payment is NULL renders from the staged
heading; so does a cart settled with the empty-string payment (the
`if cart.payment:` test is falsy on `''`); only a cart whose payment string
is nonempty renders from the settled heading, which carries that string. -/
theorem C9_amended_render_states (db : DB) (day : Day) (cid : Nat) :
    (db.carts.find? (fun c2 => c2.cart_id == cid) = none →
      get_cart db day cid = .ok (some (not_created_msg cid))) ∧
    (∀ c, db.carts.find? (fun c2 => c2.cart_id == cid) = some c → c.payment = none →
      items_of db cid ≠ [] →
      (∀ ci ∈ items_of db cid, (db.potions.find? (fun p => p.sku == ci.sku)).isSome = true) →
      ∃ rest, get_cart db day cid
        = .ok (some (staged_header c.cart_id c.customer ++ rest))) ∧
    (∀ c, db.carts.find? (fun c2 => c2.cart_id == cid) = some c → c.payment = some "" →
      items_of db cid ≠ [] →
      (∀ ci ∈ items_of db cid, (db.potions.find? (fun p => p.sku == ci.sku)).isSome = true) →
      ∃ rest, get_cart db day cid
        = .ok (some (staged_header c.cart_id c.customer ++ rest))) ∧
    (∀ c pay, db.carts.find? (fun c2 => c2.cart_id == cid) = some c →
      c.payment = some pay → pay ≠ "" → items_of db cid ≠ [] →
      (∀ ci ∈ items_of db cid, (db.potions.find? (fun p => p.sku == ci.sku)).isSome = true) →
      ∃ rest, get_cart db day cid
        = .ok (some (settled_header c.cart_id c.customer pay ++ rest))) := by
  refine ⟨?_, ?_, ?_, ?_⟩
  · intro hn
    unfold get_cart
    rw [hn]
  · intro c hc hpay hne hsk
    exact get_cart_staged db day cid c hc hpay hne hsk
  · intro c hc hpay hne hsk
    exact get_cart_staged_empty_payment db day cid c hc hpay hne hsk
  · intro c pay hc hpay hpne hne hsk
    exact get_cart_settled db day cid c pay hc hpay hpne hne hsk

/-- C10: `get_cart` on a cart row that exists but has no line items returns
no message at all (`None` in the source), a fourth outcome distinct from the
three phrasings. -/
theorem C10_empty_cart_renders_none (db : DB) (day : Day) (cid : Nat) (c : CartRow)
    (hc : db.carts.find? (fun c2 => c2.cart_id == cid) = some c)
    (hempty : items_of db cid = []) :
    get_cart db day cid = .ok none := by
  unfold get_cart
  rw [hc]
  dsimp only
  rw [show db.cart_items.filter (fun ci => ci.cart_id == cid) = items_of db cid from rfl,
    hempty]
  rfl

/-- One page of `search_orders`, sized and cursored in terms of the current
offset and the matching row count. -/
theorem search_page_stats (db : DB) (cn ps : String) (col : search_sort_options)
    (ord : search_sort_order) (page : String) (cur : Nat)
    (hpage : (if page == "" then (0 : Nat) else strToNat page) = cur) :
    (search_orders db cn ps page col ord).results.length
      = min 5 (min 6 ((search_rows db cn ps col ord).length - cur)) ∧
    (search_orders db cn ps page col ord).next
      = (if min 6 ((search_rows db cn ps col ord).length - cur) < 6 then ""
         else toString (cur + 5)) ∧
    (search_orders db cn ps page col ord).previous
      = (if (cur : Int) - 5 < 0 then "" else toString ((cur : Int) - 5)) := by
  unfold search_orders
  rw [hpage]
  dsimp only
  refine ⟨?_, ?_, rfl⟩
  · simp [List.length_take, List.length_drop]
  · simp [List.length_take, List.length_drop]

/-- C5 (amended): over 12 matching rows, the three successive pages have
sizes 5, 5, 2, next cursors "5", "10", "" and previous cursors "", "0", "5"
(the source computes `previous = cursor - 5` when that is nonnegative, so the
second and third pages report "0" and "5"). -/
theorem C5_amended_pagination (db : DB) (cn ps : String) (col : search_sort_options)
    (ord : search_sort_order)
    (h : (search_rows db cn ps col ord).length = 12) :
    ((search_orders db cn ps "" col ord).results.length = 5 ∧
     (search_orders db cn ps "" col ord).next = "5" ∧
     (search_orders db cn ps "" col ord).previous = "") ∧
    ((search_orders db cn ps "5" col ord).results.length = 5 ∧
     (search_orders db cn ps "5" col ord).next = "10" ∧
     (search_orders db cn ps "5" col ord).previous = "0") ∧
    ((search_orders db cn ps "10" col ord).results.length = 2 ∧
     (search_orders db cn ps "10" col ord).next = "" ∧
     (search_orders db cn ps "10" col ord).previous = "5") := by
  obtain ⟨s1, s2, s3⟩ := search_page_stats db cn ps col ord "" 0 rfl
  obtain ⟨t1, t2, t3⟩ := search_page_stats db cn ps col ord "5" 5 (by decide)
  obtain ⟨u1, u2, u3⟩ := search_page_stats db cn ps col ord "10" 10 (by decide)
  rw [h] at s1 s2 t1 t2 u1 u2
  refine ⟨⟨?_, ?_, ?_⟩, ⟨?_, ?_, ?_⟩, ⟨?_, ?_, ?_⟩⟩
  · exact s1.trans (by decide)
  · exact s2.trans (by decide)
  · exact s3.trans (by decide)
  · exact t1.trans (by decide)
  · exact t2.trans (by decide)
  · exact t3.trans (by decide)
  · exact u1.trans (by decide)
  · exact u2.trans (by decide)
  · exact u3.trans (by decide)

/-- The `get_catalog` loop keeps, in order, the first 6 rows of nonzero stock
of its input. -/
theorem catalogLoop_eq :
    ∀ (l : List PotionInvRow) (acc : List CatalogEntry), acc.length ≤ 6 →
    catalogLoop l acc
      = acc ++ ((l.filter (fun p => decide (p.num_potion ≠ 0))).take
          (6 - acc.length)).map mkCatalogEntry := by
  intro l
  induction l with
  | nil => intro acc h; simp [catalogLoop]
  | cons p rest ih =>
    intro acc h
    by_cases h6 : acc.length < 6
    · by_cases hz : p.num_potion ≠ 0
      · have hlen : (acc ++ [mkCatalogEntry p]).length ≤ 6 := by
          simp [List.length_append]; omega
        rw [catalogLoop, if_pos ⟨h6, hz⟩, ih _ hlen]
        have hfil : (p :: rest).filter (fun q => decide (q.num_potion ≠ 0))
            = p :: rest.filter (fun q => decide (q.num_potion ≠ 0)) := by
          simp [List.filter_cons, hz]
        rw [hfil]
        have hk : 6 - acc.length = (6 - (acc ++ [mkCatalogEntry p]).length) + 1 := by
          simp [List.length_append]; omega
        rw [hk, List.take_succ_cons, List.map_cons, List.append_assoc,
          List.singleton_append]
      · rw [catalogLoop, if_neg (by tauto), ih _ h]
        have hfil : (p :: rest).filter (fun q => decide (q.num_potion ≠ 0))
            = rest.filter (fun q => decide (q.num_potion ≠ 0)) := by
          simp only [List.filter_cons]
          simp [hz]
        rw [hfil]
    · rw [catalogLoop, if_neg (by intro hcon; exact h6 hcon.1), ih _ h]
      have h6' : acc.length = 6 := by omega
      simp [h6']

/-- C6: the catalog holds at most 6 entries, each built from an inventory row
of nonzero stock with the displayed quantity clamped at 10000 (while the row
itself keeps its stock value), and the entries follow stock-descending
order. -/
theorem C6_catalog_spec (inv : List PotionInvRow) :
    (get_catalog inv).length ≤ 6 ∧
    (∀ e ∈ get_catalog inv, ∃ p, p ∈ inv ∧ p.num_potion ≠ 0 ∧ e = mkCatalogEntry p ∧
      e.quantity = (if p.num_potion ≤ 10000 then p.num_potion else 10000)) ∧
    (∃ rows : List PotionInvRow,
      get_catalog inv = rows.map mkCatalogEntry ∧
      rows.Pairwise (fun a b => b.num_potion ≤ a.num_potion) ∧
      (∀ p ∈ rows, p ∈ inv ∧ p.num_potion ≠ 0)) := by
  have hloop := catalogLoop_eq
    (inv.mergeSort (fun a b => decide (b.num_potion ≤ a.num_potion))) [] (by simp)
  have hcat : get_catalog inv
      = (((inv.mergeSort (fun a b => decide (b.num_potion ≤ a.num_potion))).filter
          (fun p => decide (p.num_potion ≠ 0))).take 6).map mkCatalogEntry := by
    unfold get_catalog
    rw [hloop]
    simp
  have hsub : List.Sublist
      (((inv.mergeSort (fun a b => decide (b.num_potion ≤ a.num_potion))).filter
        (fun p => decide (p.num_potion ≠ 0))).take 6)
      (inv.mergeSort (fun a b => decide (b.num_potion ≤ a.num_potion))) :=
    (List.take_sublist _ _).trans (List.filter_sublist _)
  have hmemrow : ∀ p ∈ ((inv.mergeSort (fun a b => decide (b.num_potion ≤ a.num_potion))).filter
        (fun p => decide (p.num_potion ≠ 0))).take 6, p ∈ inv ∧ p.num_potion ≠ 0 := by
    intro p hp
    have hpf := List.mem_of_mem_take hp
    rw [List.mem_filter] at hpf
    obtain ⟨hpm, hpz⟩ := hpf
    exact ⟨List.mem_mergeSort.mp hpm, of_decide_eq_true hpz⟩
  refine ⟨?_, ?_, ((inv.mergeSort (fun a b => decide (b.num_potion ≤ a.num_potion))).filter
      (fun p => decide (p.num_potion ≠ 0))).take 6, hcat, ?_, hmemrow⟩
  · rw [hcat, List.length_map, List.length_take]
    exact Nat.min_le_left _ _
  · intro e he
    rw [hcat, List.mem_map] at he
    obtain ⟨p, hp, hpe⟩ := he
    obtain ⟨hpm, hpz⟩ := hmemrow p hp
    exact ⟨p, hpm, hpz, hpe.symm, by rw [← hpe]; rfl⟩
  · have hsorted : (inv.mergeSort (fun a b => decide (b.num_potion ≤ a.num_potion))).Pairwise
        (fun a b => decide (b.num_potion ≤ a.num_potion) = true) :=
      List.sorted_mergeSort
        (fun a b c hab hbc => by
          simp only [decide_eq_true_eq] at *
          exact le_trans hbc hab)
        (fun a b => by
          simp only [Bool.or_eq_true, decide_eq_true_eq]
          exact le_total b.num_potion a.num_potion)
        inv
    have hpw := hsorted.sublist hsub
    exact hpw.imp (fun hab => of_decide_eq_true hab)

/-! Concrete runs: counterexamples and witnesses. -/

/-- C1 witness: Alice's 3 RED_POTION at 50 gold check out to (3, 150) with
exactly the ledger writes the theorem describes. -/
theorem C1_checkout_totals_and_ledger_witness :
    checkout exDB1 Day.mon 1 "credit_card" = Except.ok (chk1db, 3, 150) ∧
    ((3 : Int) = sumQ (items_of exDB1 1) ∧
     (150 : Int) = sumGold exDB1.potions Day.mon (items_of exDB1 1) ∧
     chk1db.potion_entries
       = exDB1.potion_entries ++ entriesFrom exDB1.next_ptx_id (items_of exDB1 1) ∧
     chk1db.potion_transactions
       = exDB1.potion_transactions ++ txsFrom exDB1.next_ptx_id (some msg1) (items_of exDB1 1) ∧
     (∀ s, sold_of_sku chk1db.potions s Day.mon
         = sold_of_sku exDB1.potions s Day.mon + qty_of_sku (items_of exDB1 1) s) ∧
     chk1db.global_transactions = exDB1.global_transactions
       ++ [(⟨exDB1.next_gtx_id, some msg1, exDB1.now⟩ : GlobalTransaction)] ∧
     chk1db.global_entries
       = exDB1.global_entries ++ [(⟨150, exDB1.next_gtx_id⟩ : GlobalEntry)]) := by
  have h : checkout exDB1 Day.mon 1 "credit_card" = Except.ok (chk1db, 3, 150) := by rfl
  have hd : get_cart exDB1 Day.mon 1 = Except.ok (some msg1) := by rfl
  have hfresh : ∀ t ∈ exDB1.global_transactions, t.id ≠ exDB1.next_gtx_id := by decide
  exact ⟨h, C1_checkout_totals_and_ledger exDB1 Day.mon 1 "credit_card" chk1db 3 150
    (some msg1) h hd hfresh⟩

/-- C2 counterexample: a second checkout of the already-settled cart of
`exDB2` does not fail and appends one more of every ledger row kind, so the
claimed `CartAlreadySettled` failure with zero additional writes is false on
this code. -/
theorem C2_counterexample_resettlement_succeeds :
    checkout exDB2 Day.mon 1 "coin" = Except.ok (chk2db, 3, 150) ∧
    chk2db.global_transactions.length = exDB2.global_transactions.length + 1 ∧
    chk2db.global_entries.length = exDB2.global_entries.length + 1 ∧
    chk2db.potion_transactions.length = exDB2.potion_transactions.length + 1 ∧
    chk2db.potion_entries.length = exDB2.potion_entries.length + 1 := by
  exact ⟨by rfl, by rfl, by rfl, by rfl, by rfl⟩

/-- C2 witness: the amended statement applied to `exDB2`. -/
theorem C2_amended_resettlement_appends_witness :
    chk2db.global_transactions.length = exDB2.global_transactions.length + 1 ∧
    chk2db.global_entries.length = exDB2.global_entries.length + 1 ∧
    chk2db.potion_transactions.length
      = exDB2.potion_transactions.length + (items_of exDB2 1).length ∧
    chk2db.potion_entries.length = exDB2.potion_entries.length + (items_of exDB2 1).length ∧
    chk2db.carts = exDB2.carts.map (fun c2 => if c2.cart_id == 1 then
        { c2 with payment := some "coin",
                  global_inventory_transaction_id := some exDB2.next_gtx_id }
      else c2) :=
  C2_amended_resettlement_appends exDB2 Day.mon 1 "coin" ⟨1, "Bob", some "visa", some 1⟩
    chk2db 3 150 (by rfl) (by rfl) (by rfl)

/-- C3: evaluating the code at the failing input.  Setting quantity 2 and
then quantity 3 for the same sku stores two rows, and checkout charges for
quantity 5 (2 + 3) at 250 gold — the second write did not overwrite the
first. -/
theorem C3_set_quantity_inserts_not_overwrites :
    exDB3twice.cart_items.map (fun ci => (ci.sku, ci.quantity))
      = [("RED_POTION", 2), ("RED_POTION", 3)] ∧
    checkout exDB3twice Day.mon 1 "credit_card" = Except.ok (chk3db, 5, 250) := by
  exact ⟨by rfl, by rfl⟩

/-- C4 witness: the persisted description is `msg1`, the staged rendering of
the pre-checkout state; the rendering after settlement differs from it. -/
theorem C4_description_from_entry_state_witness :
    get_cart exDB1 Day.mon 1 = Except.ok (some msg1) ∧
    chk1db.global_entries
      = exDB1.global_entries ++ [(⟨150, exDB1.next_gtx_id⟩ : GlobalEntry)] ∧
    chk1db.global_transactions = exDB1.global_transactions
      ++ [(⟨exDB1.next_gtx_id, some msg1, exDB1.now⟩ : GlobalTransaction)] ∧
    chk1db.potion_transactions
      = exDB1.potion_transactions ++ txsFrom exDB1.next_ptx_id (some msg1) (items_of exDB1 1) ∧
    get_cart chk1db Day.mon 1 ≠ Except.ok (some msg1) := by
  have h : checkout exDB1 Day.mon 1 "credit_card" = Except.ok (chk1db, 3, 150) := by rfl
  have hd : get_cart exDB1 Day.mon 1 = Except.ok (some msg1) := by rfl
  have hfresh : ∀ t ∈ exDB1.global_transactions, t.id ≠ exDB1.next_gtx_id := by decide
  obtain ⟨w1, w2, w3⟩ := C4_description_from_entry_state exDB1 Day.mon 1 "credit_card"
    chk1db 3 150 (some msg1) h hd hfresh
  exact ⟨hd, w1, w2, w3, by decide⟩

/-- C5 counterexample: with 12 matching rows, the page at cursor "5" reports
previous cursor "0", not the "5" the claim asserts. -/
theorem C5_counterexample_previous_cursor :
    (search_rows exDB5 "" "" search_sort_options.timestamp search_sort_order.desc).length
      = 12 ∧
    (search_orders exDB5 "" "" "5" search_sort_options.timestamp
      search_sort_order.desc).previous = "0" ∧
    (search_orders exDB5 "" "" "5" search_sort_options.timestamp
      search_sort_order.desc).previous ≠ "5" := by
  refine ⟨?_, by rfl, by decide⟩
  unfold search_rows
  rw [List.length_mergeSort]
  rfl

/-- C5 witness: the amended pagination statement applied to `exDB5`. -/
theorem C5_amended_pagination_witness :
    (search_rows exDB5 "" "" search_sort_options.timestamp search_sort_order.desc).length
      = 12 ∧
    (((search_orders exDB5 "" "" "" search_sort_options.timestamp
        search_sort_order.desc).results.length = 5 ∧
      (search_orders exDB5 "" "" "" search_sort_options.timestamp
        search_sort_order.desc).next = "5" ∧
      (search_orders exDB5 "" "" "" search_sort_options.timestamp
        search_sort_order.desc).previous = "") ∧
     ((search_orders exDB5 "" "" "5" search_sort_options.timestamp
        search_sort_order.desc).results.length = 5 ∧
      (search_orders exDB5 "" "" "5" search_sort_options.timestamp
        search_sort_order.desc).next = "10" ∧
      (search_orders exDB5 "" "" "5" search_sort_options.timestamp
        search_sort_order.desc).previous = "0") ∧
     ((search_orders exDB5 "" "" "10" search_sort_options.timestamp
        search_sort_order.desc).results.length = 2 ∧
      (search_orders exDB5 "" "" "10" search_sort_options.timestamp
        search_sort_order.desc).next = "" ∧
      (search_orders exDB5 "" "" "10" search_sort_options.timestamp
        search_sort_order.desc).previous = "5")) :=
  ⟨by unfold search_rows; rw [List.length_mergeSort]; rfl,
   C5_amended_pagination exDB5 "" "" search_sort_options.timestamp
    search_sort_order.desc
    (by unfold search_rows; rw [List.length_mergeSort]; rfl)⟩

/-- C7 witness: two checkouts (3 RED on Monday, then 4 RED + 1 BLUE on
Tuesday) leave derived RED stock at -(3 + 4) = -7. -/
theorem C7_conservation_witness :
    run_checkouts exDB7 exRuns7 = Except.ok run7db ∧
    num_potion_of exDB7 "RED_POTION" = 0 ∧
    num_potion_of run7db "RED_POTION"
      = -(total_sold exDB7.cart_items "RED_POTION" exRuns7) ∧
    num_potion_of run7db "RED_POTION" = -7 := by
  have h : run_checkouts exDB7 exRuns7 = Except.ok run7db := by rfl
  exact ⟨h, by rfl, C7_conservation exDB7 exRuns7 run7db "RED_POTION" h (by rfl), by rfl⟩

/-- C8 counterexample: checkout on the unknown cart id 42 fails with the
`None`-attribute error, not with a `CartNotFound` error value. -/
theorem C8_counterexample_attribute_error :
    checkout exDB3 Day.mon 42 "coin" = Except.error PyError.attributeErrorNone ∧
    checkout exDB3 Day.mon 42 "coin" ≠ Except.error PyError.cartNotFound := by
  exact ⟨by rfl, by decide⟩

/-- C8 witness: the amended statement applied to cart id 42 of `exDB3`. -/
theorem C8_amended_unknown_cart_attribute_error_witness :
    exDB3.carts.find? (fun c => c.cart_id == 42) = none ∧
    checkout exDB3 Day.mon 42 "coin" = Except.error PyError.attributeErrorNone :=
  ⟨by rfl, C8_amended_unknown_cart_attribute_error exDB3 Day.mon 42 "coin" (by rfl)⟩

/-- C9 counterexample: `exDB9`'s cart is checked out — its payment (the
empty string) and its transaction reference are both non-null — yet
`get_cart` renders the staged phrasing, not the settled phrasing carrying
the payment string: `if cart.payment:` is falsy on `''`. -/
theorem C9_counterexample_empty_payment_staged :
    (exDB9.carts.find? (fun c => c.cart_id == 1)).map (fun c => c.payment)
      = some (some "") ∧
    (exDB9.carts.find? (fun c => c.cart_id == 1)).map
      (fun c => c.global_inventory_transaction_id) = some (some 1) ∧
    get_cart exDB9 Day.mon 1 = Except.ok (some msg9) ∧
    msg9 = staged_header 1 "Bob"
      ++ " 3 RED_POTION ([100, 0, 0, 0]) for 150 gold (-3 remaining)." ∧
    (staged_header 1 "Bob").data.isPrefixOf msg9.data = true ∧
    (settled_header 1 "Bob" "").data.isPrefixOf msg9.data = false := by
  exact ⟨rfl, rfl, by rfl, by rfl, by decide, by decide⟩

/-- C9 witness: the phrasings on concrete states — unknown id 7, Alice's
staged cart, Bob's cart settled with the empty-string payment (staged
phrasing), and Alice's cart after checkout with "credit_card". -/
theorem C9_amended_render_states_witness :
    get_cart exDB3 Day.mon 7 = Except.ok (some (not_created_msg 7)) ∧
    (∃ rest, get_cart exDB1 Day.mon 1
      = Except.ok (some (staged_header 1 "Alice" ++ rest))) ∧
    (∃ rest, get_cart exDB9 Day.mon 1
      = Except.ok (some (staged_header 1 "Bob" ++ rest))) ∧
    (∃ rest, get_cart chk1db Day.mon 1
      = Except.ok (some (settled_header 1 "Alice" "credit_card" ++ rest))) :=
  ⟨(C9_amended_render_states exDB3 Day.mon 7).1 (by rfl),
   (C9_amended_render_states exDB1 Day.mon 1).2.1 ⟨1, "Alice", none, none⟩
     (by rfl) rfl (by decide) (by decide),
   (C9_amended_render_states exDB9 Day.mon 1).2.2.1 ⟨1, "Bob", some "", some 1⟩
     (by rfl) rfl (by decide) (by decide),
   (C9_amended_render_states chk1db Day.mon 1).2.2.2 ⟨1, "Alice", some "credit_card", some 1⟩
     "credit_card" (by rfl) rfl (by decide) (by decide) (by decide)⟩

/-- C10 witness: Alice's empty cart row renders no message at all. -/
theorem C10_empty_cart_renders_none_witness :
    get_cart exDB3 Day.mon 1 = Except.ok none :=
  C10_empty_cart_renders_none exDB3 Day.mon 1 ⟨1, "Alice", none, none⟩ (by rfl) (by rfl)

end PhunPotions
